import Mathlib

/-
Verification of the adversarial-training core of the CellEnMon CycleGAN model
(CellEnMon/models/cycle_gan_model.py), as a shallow embedding.

Tensors are modelled as lists of rationals (one flat channel; the tensor
backend is out of scope per the spec).  The neural networks (netG_A, netG_B,
netD_A, netD_B), the GAN criterion (GANLoss, defined in the networks module,
which is outside the provided sources), the torch sigmoid and the torch
BCELoss are kept as abstract function parameters: the training core only
calls them.  The torch L1Loss and MSELoss criteria (mean absolute error and
mean squared error with the default mean reduction) are given concretely.
Gradient/detach semantics are modelled separately by a small expression
language with an explicit gradient-dependency set.
-/

namespace CGM

/-- Tensors of the model are flat numeric sequences. -/
abbrev Tensor := List ℚ

/-- Torch L1Loss with default mean reduction: mean of elementwise absolute
differences; corresponds to criterionCycle and criterionIdt in the model. -/
def l1Loss (a b : Tensor) : ℚ :=
  (List.zipWith (fun x y => |x - y|) a b).sum / a.length

/-- Torch MSELoss with default mean reduction, the diagnostic mse criterion. -/
def mseLoss (a b : Tensor) : ℚ :=
  (List.zipWith (fun x y => (x - y) ^ 2) a b).sum / a.length

/-- Embedding of torch.where(cond tensor greater than th, vals, zeros):
elementwise, keep the value where the condition tensor exceeds th, else 0. -/
def whereGT (cond : Tensor) (th : ℚ) (vals : Tensor) : Tensor :=
  List.zipWith (fun c v => if c > th then v else 0) cond vals

/-- Embedding of torch.max over a tensor (maximal element; the default value
for the empty tensor is irrelevant to every claim). -/
def tensorMax (t : Tensor) : ℚ :=
  t.foldl max (t.headD 0)

/-- Embedding of torch.detach at the value level: the detached view holds the
same values; its gradient-severing role is modelled by TExpr below. -/
def detach (t : Tensor) : Tensor := t

/-- The min-max inverse transform of cycle_gan_model.py, lines 254-255:
return (x+1) * (mmax - mmin) * 0.5 + mmin. -/
def min_max_inv_transform (x mmin mmax : ℚ) : ℚ :=
  (x + 1) * (mmax - mmin) * (1 / 2) + mmin

/-- The commandline options the training core reads (modify_commandline_options
adds lambda_A, lambda_B, lambda_identity). -/
structure Options where
  lambda_A : ℚ
  lambda_B : ℚ
  lambda_identity : ℚ
deriving DecidableEq

/-- Defaults registered by modify_commandline_options for the training phase:
lambda_A and lambda_B default to 10, lambda_identity to 0. -/
def defaultTrainOptions : Options :=
  { lambda_A := 10, lambda_B := 10, lambda_identity := 0 }

/-- The four networks, abstract differentiable maps (contract only). -/
structure Networks where
  netG_A : Tensor → Tensor
  netG_B : Tensor → Tensor
  netD_A : Tensor → Tensor
  netD_B : Tensor → Tensor

/-- The loss criteria whose internals live outside the training core:
criterionGAN (GANLoss applied to a prediction and a boolean real/fake
target), the pointwise torch sigmoid, and torch BCELoss. -/
structure Criteria where
  criterionGAN : Tensor → Bool → ℚ
  sigmoid : ℚ → ℚ
  bce : Tensor → Tensor → ℚ

/-- One iteration of input from the dataset collaborator, as consumed by
set_input in the AtoB direction: the A and B sequences, the rain_rate and
attenuation occurrence probabilities, and the link min/max of the
data_transformation used by the denormalization hook. -/
structure DataInput where
  A : Tensor
  B : Tensor
  rain_rate : Tensor
  attenuation : Tensor
  link_min : ℚ
  link_max : ℚ

/-- The mutable tensor state of the model that the training step reads and
writes (the value/state holder). -/
structure ModelState where
  real_A : Tensor
  real_B : Tensor
  fake_A : Tensor
  fake_B : Tensor
  rec_A : Tensor
  rec_B : Tensor
  fake_B_classification_vector : Tensor
  fake_A_classification_vector : Tensor
  rain_rate_prob : Tensor
  attenuation_prob : Tensor
  data_min : ℚ
  data_max : ℚ

/-- Embedding of set_input (training mode, AtoB direction): real_A and real_B
come from the A and B entries, rain_rate_prob is 1 - rain_rate elementwise,
attenuation_prob is 1 - attenuation elementwise, and the link channel
data_transformation min/max are recorded for the denormalization hook.
Generated-tensor fields start empty; forward overwrites them. -/
def set_input (inp : DataInput) : ModelState :=
  { real_A := inp.A
    real_B := inp.B
    fake_A := []
    fake_B := []
    rec_A := []
    rec_B := []
    fake_B_classification_vector := []
    fake_A_classification_vector := []
    rain_rate_prob := inp.rain_rate.map (fun p => 1 - p)
    attenuation_prob := inp.attenuation.map (fun p => 1 - p)
    data_min := inp.link_min
    data_max := inp.link_max }

/-- Embedding of forward (lines 132-156): fake_B = netG_A(real_A), its
classification vector is the pointwise sigmoid of fake_B, rec_A =
netG_B(fake_B); symmetrically fake_A = netG_B(real_B), its classification
vector is the sigmoid of fake_A, rec_B = netG_A(fake_A). -/
def forward (nets : Networks) (sigmoid : ℚ → ℚ) (s : ModelState) : ModelState :=
  let fake_B := nets.netG_A s.real_A
  let fake_B_classification_vector := fake_B.map sigmoid
  let rec_A := nets.netG_B fake_B
  let fake_A := nets.netG_B s.real_B
  let fake_A_classification_vector := fake_A.map sigmoid
  let rec_B := nets.netG_A fake_A
  { s with
    fake_B := fake_B
    fake_B_classification_vector := fake_B_classification_vector
    rec_A := rec_A
    fake_A := fake_A
    fake_A_classification_vector := fake_A_classification_vector
    rec_B := rec_B }

/-- Observable events of one training step, used to state the scheduling
invariants: the forward pass, toggling of the requires_grad
flags, optimizer zero_grad and step (by optimizer name), replay-pool query
(by pool name), and the identity forward evaluations inside backward_G. -/
inductive Event where
  | forwardPass : Event
  | setRequiresGradD : Bool → Event
  | zeroGrad : String → Event
  | stepOpt : String → Event
  | poolQuery : String → Event
  | gIdentityForward : String → Event
deriving DecidableEq

/-- The identity-branch events of backward_G: with positive lambda_identity it
evaluates netG_A on real_B and netG_B on real_A; with lambda_identity = 0 it
performs no identity forward computation. -/
def idtEvents (opt : Options) : List Event :=
  if opt.lambda_identity > 0 then
    [Event.gIdentityForward "G_A", Event.gIdentityForward "G_B"]
  else []

/-- The scalar losses produced by backward_G, together with the denormalized
maximum of fake_B (a diagnostic hook, used by no loss term). -/
structure GLosses where
  loss_idt_A : ℚ
  loss_idt_B : ℚ
  loss_G_A : ℚ
  loss_G_B : ℚ
  loss_cycle_A : ℚ
  loss_cycle_B : ℚ
  loss_G : ℚ
  loss_mse_A : ℚ
  loss_mse_B : ℚ
  fake_B_unnormalized : ℚ
deriving DecidableEq

/-- Embedding of backward_G (lines 193-251).  The local cycle weights are the
hard-coded constants lambda_A = 10 and lambda_B = 10 of lines 196-197 (the
configured opt.lambda_A and opt.lambda_B are not consulted); lambda_identity
is read from the options.  The assert of line 217 comparing the
shape of the classification vector with the shape of real_B is the error case.
The backward cycle loss thresholds rec_B by the condition real_B greater
than 0.25 (line 243); the classification vector keeps only its own entries
exceeding 0.1 (line 221); the diagnostic mse_B threshold-zeroes fake_B by
its own entries against 0.25 (lines 250-251). -/
def backward_G (nets : Networks) (crit : Criteria) (opt : Options)
    (s : ModelState) : Except String (GLosses × List Event) :=
  let lambda_idt := opt.lambda_identity
  let lambda_A : ℚ := 10
  let lambda_B : ℚ := 10
  let loss_idt_A : ℚ :=
    if lambda_idt > 0 then
      l1Loss (nets.netG_A s.real_B) s.real_B * lambda_B * lambda_idt
    else 0
  let loss_idt_B : ℚ :=
    if lambda_idt > 0 then
      l1Loss (nets.netG_B s.real_A) s.real_A * lambda_A * lambda_idt
    else 0
  let th : ℚ := 1 / 4
  let loss_G_A := crit.criterionGAN (nets.netD_A s.fake_B) true
  if s.fake_B_classification_vector.length = s.real_B.length then
    let classification_vector :=
      whereGT s.fake_B_classification_vector (1 / 10)
        s.fake_B_classification_vector
    let loss_G_B := crit.criterionGAN (nets.netD_B s.fake_A) true +
      crit.bce classification_vector s.real_B
    let fake_B_max := tensorMax s.fake_B
    let fake_B_unnormalized :=
      min_max_inv_transform fake_B_max s.data_min s.data_max
    let loss_cycle_A := l1Loss s.real_A s.rec_A * lambda_A
    let loss_cycle_B := l1Loss s.real_B (whereGT s.real_B th s.rec_B) * lambda_B
    let loss_G := loss_G_A + loss_G_B + loss_cycle_A + loss_cycle_B +
      loss_idt_A + loss_idt_B
    let loss_mse_A := mseLoss s.fake_A s.real_A
    let loss_mse_B := mseLoss s.real_B (whereGT s.fake_B th s.fake_B)
    Except.ok
      ({ loss_idt_A := loss_idt_A
         loss_idt_B := loss_idt_B
         loss_G_A := loss_G_A
         loss_G_B := loss_G_B
         loss_cycle_A := loss_cycle_A
         loss_cycle_B := loss_cycle_B
         loss_G := loss_G
         loss_mse_A := loss_mse_A
         loss_mse_B := loss_mse_B
         fake_B_unnormalized := fake_B_unnormalized }, idtEvents opt)
  else
    Except.error "Shape mismatch between fake_B and real_B"

/-- Embedding of backward_D_basic (lines 161-181): GAN loss of the critic on
the real batch with target real, plus GAN loss on the detached fake batch
with target fake. -/
def backward_D_basic (criterionGAN : Tensor → Bool → ℚ)
    (netD : Tensor → Tensor) (real fake : Tensor) : ℚ :=
  let pred_real := netD real
  let loss_D_real := criterionGAN pred_real true
  let pred_fake := netD (detach fake)
  let loss_D_fake := criterionGAN pred_fake false
  loss_D_real + loss_D_fake

/-- Embedding of backward_D_A (lines 183-186): query the fake_B pool with the
current fake_B and train D_A on real_B versus the served batch.  The query of the pool is an abstract function; the event records its single invocation. -/
def backward_D_A (nets : Networks) (crit : Criteria)
    (queryB : Tensor → Tensor) (s : ModelState) : ℚ × List Event :=
  let fake_B := queryB s.fake_B
  (backward_D_basic crit.criterionGAN nets.netD_A s.real_B fake_B,
    [Event.poolQuery "fake_B_pool"])

/-- Embedding of backward_D_B (lines 188-191), symmetric to backward_D_A. -/
def backward_D_B (nets : Networks) (crit : Criteria)
    (queryA : Tensor → Tensor) (s : ModelState) : ℚ × List Event :=
  let fake_A := queryA s.fake_A
  (backward_D_basic crit.criterionGAN nets.netD_B s.real_A fake_A,
    [Event.poolQuery "fake_A_pool"])

/-- The discriminator losses of one training step. -/
structure DLosses where
  loss_D_A : ℚ
  loss_D_B : ℚ
deriving DecidableEq

/-- The result of one optimize_parameters call: the post-forward tensor
state, the generator and discriminator losses (absent in inference mode),
and the ordered event trace. -/
structure StepResult where
  state : ModelState
  gLosses : Option GLosses
  dLosses : Option DLosses
  trace : List Event

/-- Embedding of optimize_parameters (lines 260-278).  Training mode: forward,
freeze the discriminators, zero the generator optimizer, backward_G, step the
generator optimizer, unfreeze the discriminators, zero the critic optimizer,
backward_D_A, backward_D_B, step the critic optimizer.  Inference mode: the
forward pass only, under no_grad. -/
def optimize_parameters (nets : Networks) (crit : Criteria) (opt : Options)
    (queryA queryB : Tensor → Tensor) (s : ModelState) (is_train : Bool) :
    Except String StepResult :=
  if is_train then
    let s1 := forward nets crit.sigmoid s
    match backward_G nets crit opt s1 with
    | Except.error e => Except.error e
    | Except.ok (g, gEvents) =>
      let dA := backward_D_A nets crit queryB s1
      let dB := backward_D_B nets crit queryA s1
      Except.ok
        { state := s1
          gLosses := some g
          dLosses := some { loss_D_A := dA.1, loss_D_B := dB.1 }
          trace :=
            [Event.forwardPass, Event.setRequiresGradD false,
              Event.zeroGrad "G"] ++ gEvents ++
            [Event.stepOpt "G", Event.setRequiresGradD true,
              Event.zeroGrad "D"] ++ dA.2 ++ dB.2 ++ [Event.stepOpt "D"] }
  else
    Except.ok
      { state := forward nets crit.sigmoid s
        gLosses := none
        dLosses := none
        trace := [Event.forwardPass] }

/-- One full training iteration as driven by train.py: set_input then
optimize_parameters in training mode. -/
def trainingStep (nets : Networks) (crit : Criteria) (opt : Options)
    (queryA queryB : Tensor → Tensor) (inp : DataInput) :
    Except String StepResult :=
  optimize_parameters nets crit opt queryA queryB (set_input inp) true

/-- Erase the diagnostic fake_B_unnormalized field, keeping every loss. -/
def scrubG (g : GLosses) : GLosses :=
  { g with fake_B_unnormalized := 0 }

/-- Tensor expressions with explicit gradient provenance: a raw input tensor
(no trainable producer), the application of a named parameterized network,
and torch.detach, which severs the gradient path into its argument. -/
inductive TExpr where
  | input : Tensor → TExpr
  | app : String → TExpr → TExpr
  | detach : TExpr → TExpr

/-- Value of a tensor expression, given an interpretation of the named
networks; detach is value-transparent. -/
def TExpr.eval (interp : String → Tensor → Tensor) : TExpr → Tensor
  | TExpr.input t => t
  | TExpr.app n a => interp n (a.eval interp)
  | TExpr.detach e => e.eval interp

/-- The networks whose parameters receive gradient when backpropagating
through the expression: applying a network contributes its own parameters
and continues into the argument; detach contributes nothing. -/
def TExpr.gradDeps : TExpr → List String
  | TExpr.input _ => []
  | TExpr.app n a => n :: a.gradDeps
  | TExpr.detach _ => []

/-- The two critic-output expressions backpropagated by backward_D_basic:
the critic applied to the real batch, and the critic applied to the detached
fake batch. -/
def backward_D_basic_exprs (d : String) (real fake : TExpr) : TExpr × TExpr :=
  (TExpr.app d real, TExpr.app d (TExpr.detach fake))

/-- The event trace of one training-mode optimize_parameters call, as proved
in the scheduling theorem: forward pass, discriminators frozen, generator
optimizer zeroed, the identity forward evaluations when configured, one
generator step, discriminators unfrozen, critic optimizer zeroed, one pool
query per domain, one critic step. -/
def trainTrace (opt : Options) : List Event :=
  [Event.forwardPass, Event.setRequiresGradD false, Event.zeroGrad "G"] ++
  idtEvents opt ++
  [Event.stepOpt "G", Event.setRequiresGradD true, Event.zeroGrad "D",
    Event.poolQuery "fake_B_pool", Event.poolQuery "fake_A_pool",
    Event.stepOpt "D"]

/-- Concrete options with cycle weights configured to 5, for the cycle-weight
counterexample. -/
def fiveOpt : Options :=
  { lambda_A := 5, lambda_B := 5, lambda_identity := 0 }

/-- Concrete options with cycle weights 5 and identity weight 1, for the
identity-loss counterexample. -/
def idtOpt : Options :=
  { lambda_A := 5, lambda_B := 5, lambda_identity := 1 }

/-- Concrete networks acting as the identity, for witnesses. -/
def idNets : Networks :=
  { netG_A := fun t => t
    netG_B := fun t => t
    netD_A := fun t => t
    netD_B := fun t => t }

/-- Concrete networks whose A-to-B translator scales by one tenth. -/
def tenthNets : Networks :=
  { netG_A := fun t => t.map (fun v => v / 10)
    netG_B := fun t => t
    netD_A := fun t => t
    netD_B := fun t => t }

/-- Concrete loss criteria, with zero GAN and BCE losses and the identity in
place of the sigmoid, for witnesses and counterexamples. -/
def zeroCrit : Criteria :=
  { criterionGAN := fun _ _ => 0
    sigmoid := fun x => x
    bce := fun _ _ => 0 }

/-- Concrete one-element input state, for witnesses and counterexamples. -/
def exState1 : ModelState :=
  { real_A := [1]
    real_B := [1]
    fake_A := []
    fake_B := []
    rec_A := []
    rec_B := []
    fake_B_classification_vector := []
    fake_A_classification_vector := []
    rain_rate_prob := []
    attenuation_prob := []
    data_min := 0
    data_max := 1 }

/-- Helper: thresholding a tensor by its own values is an elementwise map. -/
lemma whereGT_self_eq_map (th : ℚ) (t : Tensor) :
    whereGT t th t = t.map (fun v => if v > th then v else 0) := by
  induction t with
  | nil => rfl
  | cons x xs ih =>
    simp only [whereGT, List.zipWith, List.map]
    exact congrArg _ ih

/-- Helper: thresholding a tensor by its own values, twice, is one pass. -/
lemma whereGT_self_idem (th : ℚ) (t : Tensor) :
    whereGT (whereGT t th t) th (whereGT t th t) = whereGT t th t := by
  rw [whereGT_self_eq_map, whereGT_self_eq_map, List.map_map]
  have hg : ((fun v : ℚ => if v > th then v else 0) ∘
      fun v : ℚ => if v > th then v else 0) =
      fun v : ℚ => if v > th then v else 0 := by
    funext v
    by_cases h : v > th
    · simp [h]
    · simp [h]
  rw [hg]

/-- Helper: thresholding by a fixed mask tensor, twice, is one pass. -/
lemma whereGT_mask_idem (m : Tensor) (th : ℚ) (t : Tensor) :
    whereGT m th (whereGT m th t) = whereGT m th t := by
  induction m generalizing t with
  | nil => rfl
  | cons c cs ih =>
    cases t with
    | nil => rfl
    | cons x xs =>
      simp only [whereGT, List.zipWith] at ih ⊢
      by_cases h : c > th
      · simp [h, ih]
      · simp [h, ih]

/-- C7: the denormalization utility computes
(x + 1) * (max - min) / 2 + min for all inputs; with min 0, max 10 it sends
x = 1 to 10 and x = -1 to 0. -/
theorem min_max_inv_transform_spec :
    (∀ x mmin mmax : ℚ,
      min_max_inv_transform x mmin mmax = (x + 1) * (mmax - mmin) / 2 + mmin) ∧
    min_max_inv_transform 1 0 10 = 10 ∧
    min_max_inv_transform (-1) 0 10 = 0 := by
  refine ⟨fun x mmin mmax => ?_, ?_, ?_⟩ <;>
    simp [min_max_inv_transform] <;> ring

/-- C8: the threshold-zero operations used in the losses are idempotent:
zeroing the entries of a tensor by its own values against threshold 0.25 or 0.1
twice equals doing it once, and likewise for the mask form that zeroes
rec_B entries by the real_B condition at threshold 0.25. -/
theorem threshold_zero_idempotent (t m : Tensor) :
    whereGT (whereGT t (1 / 4) t) (1 / 4) (whereGT t (1 / 4) t) =
      whereGT t (1 / 4) t ∧
    whereGT (whereGT t (1 / 10) t) (1 / 10) (whereGT t (1 / 10) t) =
      whereGT t (1 / 10) t ∧
    whereGT m (1 / 4) (whereGT m (1 / 4) t) = whereGT m (1 / 4) t :=
  ⟨whereGT_self_idem _ t, whereGT_self_idem _ t, whereGT_mask_idem m _ t⟩

/-- C1 (counterexample): the claim that the backward cycle loss thresholds
rec_B by the values of rec_B itself fails.  With the one-tenth A-to-B translator and
real_B = [1], the forward pass yields rec_B = [1/10]; the code computes
loss_cycle_B = 9 (real_B greater than 0.25, so rec_B is kept), while the
claimed rec_B-self-thresholded formula gives 10 (1/10 is at most 0.25, so
rec_B would be zeroed). -/
theorem cycle_B_threshold_counterexample :
    (backward_G tenthNets zeroCrit defaultTrainOptions
        (forward tenthNets zeroCrit.sigmoid exState1)).map
        (fun r => r.1.loss_cycle_B) = Except.ok 9 ∧
    l1Loss exState1.real_B
        (whereGT (forward tenthNets zeroCrit.sigmoid exState1).rec_B (1 / 4)
          (forward tenthNets zeroCrit.sigmoid exState1).rec_B) * 10 = 10 ∧
    (backward_G tenthNets zeroCrit defaultTrainOptions
        (forward tenthNets zeroCrit.sigmoid exState1)).map
        (fun r => r.1.loss_cycle_B) ≠
      Except.ok (l1Loss exState1.real_B
        (whereGT (forward tenthNets zeroCrit.sigmoid exState1).rec_B (1 / 4)
          (forward tenthNets zeroCrit.sigmoid exState1).rec_B) * 10) := by
  refine ⟨?_, ?_, ?_⟩ <;>
    norm_num [backward_G, forward, tenthNets, zeroCrit, exState1,
      defaultTrainOptions, idtEvents, l1Loss, mseLoss, whereGT, tensorMax,
      min_max_inv_transform, Except.map, abs]

/-- C1 (amended): in backward_G the backward cycle-consistency loss equals
the L1 distance between real_B and a thresholded copy of rec_B scaled by the
hard-coded weight 10, where the zeroing condition is given by the values of real_B:
an element of rec_B is zeroed exactly where the matching element of real_B
is at or below the threshold 0.25. -/
theorem loss_cycle_B_formula (nets : Networks) (crit : Criteria)
    (opt : Options) (s : ModelState)
    (hshape : (nets.netG_A s.real_A).length = s.real_B.length) :
    (backward_G nets crit opt (forward nets crit.sigmoid s)).map
        (fun r => r.1.loss_cycle_B) =
      Except.ok (l1Loss s.real_B
        (whereGT s.real_B (1 / 4) (nets.netG_A (nets.netG_B s.real_B))) *
        10) := by
  simp [backward_G, forward, hshape, Except.map]

/-- C2 (counterexample): configuring lambda_A = lambda_B = 5 does not rescale
the cycle losses.  With the one-tenth A-to-B translator on exState1 the code
computes loss_cycle_A = 9 (factor 10), while the claimed scaling by the
configured lambda_A would give 9/2. -/
theorem cycle_lambda_override_counterexample :
    (backward_G tenthNets zeroCrit fiveOpt
        (forward tenthNets zeroCrit.sigmoid exState1)).map
        (fun r => (r.1.loss_cycle_A, r.1.loss_cycle_B)) =
      Except.ok (9, 9) ∧
    l1Loss exState1.real_A (forward tenthNets zeroCrit.sigmoid exState1).rec_A *
        fiveOpt.lambda_A = 9 / 2 ∧
    (backward_G tenthNets zeroCrit fiveOpt
        (forward tenthNets zeroCrit.sigmoid exState1)).map
        (fun r => r.1.loss_cycle_A) ≠
      Except.ok (l1Loss exState1.real_A
        (forward tenthNets zeroCrit.sigmoid exState1).rec_A *
        fiveOpt.lambda_A) := by
  refine ⟨?_, ?_, ?_⟩ <;>
    norm_num [backward_G, forward, tenthNets, zeroCrit, exState1, fiveOpt,
      idtEvents, l1Loss, mseLoss, whereGT, tensorMax, min_max_inv_transform,
      Except.map, abs]

/-- C2 (amended): the lambda_A and lambda_B options exist and default to 10,
but backward_G scales the forward cycle loss and the backward cycle loss by
the hard-coded constant 10 for every configured value of those options: the
configured lambda_A and lambda_B have no effect on the cycle losses. -/
theorem cycle_lambda_defaults_and_hardcoded (nets : Networks) (crit : Criteria)
    (opt : Options) (s : ModelState)
    (hshape : (nets.netG_A s.real_A).length = s.real_B.length) :
    defaultTrainOptions.lambda_A = 10 ∧ defaultTrainOptions.lambda_B = 10 ∧
    (backward_G nets crit opt (forward nets crit.sigmoid s)).map
        (fun r => (r.1.loss_cycle_A, r.1.loss_cycle_B)) =
      Except.ok
        (l1Loss s.real_A (nets.netG_B (nets.netG_A s.real_A)) * 10,
          l1Loss s.real_B
            (whereGT s.real_B (1 / 4) (nets.netG_A (nets.netG_B s.real_B))) *
            10) := by
  refine ⟨rfl, rfl, ?_⟩
  simp [backward_G, forward, hshape, Except.map]

/-- Witness for the amended C2 theorem, at the configured weight 5: the cycle
losses still carry the factor 10. -/
theorem cycle_lambda_hardcoded_witness :
    (tenthNets.netG_A exState1.real_A).length = exState1.real_B.length ∧
    (backward_G tenthNets zeroCrit fiveOpt
        (forward tenthNets zeroCrit.sigmoid exState1)).map
        (fun r => (r.1.loss_cycle_A, r.1.loss_cycle_B)) =
      Except.ok
        (l1Loss exState1.real_A
          (tenthNets.netG_B (tenthNets.netG_A exState1.real_A)) * 10,
          l1Loss exState1.real_B
            (whereGT exState1.real_B (1 / 4)
              (tenthNets.netG_A (tenthNets.netG_B exState1.real_B))) * 10) :=
  ⟨rfl, (cycle_lambda_defaults_and_hardcoded tenthNets zeroCrit fiveOpt
    exState1 rfl).2.2⟩

/-- C6 (counterexample): with identity weight 1 and configured lambda_B = 5,
the code computes loss_idt_A = 9 (factor 10), while the claimed scaling by
the configured lambda_B would give 9/2. -/
theorem identity_loss_lambda_counterexample :
    (backward_G tenthNets zeroCrit idtOpt
        (forward tenthNets zeroCrit.sigmoid exState1)).map
        (fun r => r.1.loss_idt_A) = Except.ok 9 ∧
    l1Loss (tenthNets.netG_A exState1.real_B) exState1.real_B *
        idtOpt.lambda_B * idtOpt.lambda_identity = 9 / 2 ∧
    (backward_G tenthNets zeroCrit idtOpt
        (forward tenthNets zeroCrit.sigmoid exState1)).map
        (fun r => r.1.loss_idt_A) ≠
      Except.ok (l1Loss (tenthNets.netG_A exState1.real_B) exState1.real_B *
        idtOpt.lambda_B * idtOpt.lambda_identity) := by
  refine ⟨?_, ?_, ?_⟩ <;>
    norm_num [backward_G, forward, tenthNets, zeroCrit, exState1, idtOpt,
      idtEvents, l1Loss, mseLoss, whereGT, tensorMax, min_max_inv_transform,
      Except.map, abs]

/-- C6 (amended): identity-loss gating.  With lambda_identity = 0, backward_G
sets loss_idt_A and loss_idt_B to exactly 0 and performs no identity forward
computation (its event list is empty).  With lambda_identity positive,
loss_idt_A is the L1 distance between netG_A applied to real_B and real_B
times the hard-coded weight 10 times lambda_identity, and loss_idt_B is the
L1 distance between netG_B applied to real_A and real_A times the hard-coded
weight 10 times lambda_identity, and both identity forward evaluations are
performed. -/
theorem identity_loss_gating (nets : Networks) (crit : Criteria)
    (opt : Options) (s : ModelState)
    (hshape : (nets.netG_A s.real_A).length = s.real_B.length) :
    (opt.lambda_identity = 0 →
      (backward_G nets crit opt (forward nets crit.sigmoid s)).map
          (fun r => (r.1.loss_idt_A, r.1.loss_idt_B, r.2)) =
        Except.ok (0, 0, [])) ∧
    (opt.lambda_identity > 0 →
      (backward_G nets crit opt (forward nets crit.sigmoid s)).map
          (fun r => (r.1.loss_idt_A, r.1.loss_idt_B, r.2)) =
        Except.ok
          (l1Loss (nets.netG_A s.real_B) s.real_B * 10 * opt.lambda_identity,
            l1Loss (nets.netG_B s.real_A) s.real_A * 10 *
              opt.lambda_identity,
            [Event.gIdentityForward "G_A", Event.gIdentityForward "G_B"])) := by
  constructor
  · intro h0
    simp [backward_G, forward, hshape, idtEvents, h0, Except.map]
  · intro hpos
    simp [backward_G, forward, hshape, idtEvents, hpos, Except.map,
      mul_comm, mul_left_comm]

/-- Witness for the identity-loss gating theorem: the zero branch at the
default options and the positive branch at identity weight 1. -/
theorem identity_loss_gating_witness :
    ((idNets.netG_A exState1.real_A).length = exState1.real_B.length ∧
      defaultTrainOptions.lambda_identity = 0 ∧
      (backward_G idNets zeroCrit defaultTrainOptions
          (forward idNets zeroCrit.sigmoid exState1)).map
          (fun r => (r.1.loss_idt_A, r.1.loss_idt_B, r.2)) =
        Except.ok (0, 0, [])) ∧
    (idtOpt.lambda_identity > 0 ∧
      (backward_G tenthNets zeroCrit idtOpt
          (forward tenthNets zeroCrit.sigmoid exState1)).map
          (fun r => (r.1.loss_idt_A, r.1.loss_idt_B, r.2)) =
        Except.ok
          (l1Loss (tenthNets.netG_A exState1.real_B) exState1.real_B * 10 *
              idtOpt.lambda_identity,
            l1Loss (tenthNets.netG_B exState1.real_A) exState1.real_A * 10 *
              idtOpt.lambda_identity,
            [Event.gIdentityForward "G_A", Event.gIdentityForward "G_B"])) :=
  ⟨⟨rfl, rfl,
      (identity_loss_gating idNets zeroCrit defaultTrainOptions exState1
        rfl).1 rfl⟩,
    ⟨by norm_num [idtOpt],
      (identity_loss_gating tenthNets zeroCrit idtOpt exState1 rfl).2
        (by norm_num [idtOpt])⟩⟩

/-- Witness for the amended C1 theorem at identity networks on exState1. -/
theorem loss_cycle_B_formula_witness :
    (idNets.netG_A exState1.real_A).length = exState1.real_B.length ∧
    (backward_G idNets zeroCrit defaultTrainOptions
        (forward idNets zeroCrit.sigmoid exState1)).map
        (fun r => r.1.loss_cycle_B) =
      Except.ok (l1Loss exState1.real_B
        (whereGT exState1.real_B (1 / 4)
          (idNets.netG_A (idNets.netG_B exState1.real_B))) * 10) :=
  ⟨rfl, loss_cycle_B_formula idNets zeroCrit defaultTrainOptions exState1 rfl⟩

/-- C4: the generator adversarial loss is asymmetric.  After the forward
pass, loss_G_A is exactly the GAN criterion on netD_A applied to fake_B with
target real, while loss_G_B is the GAN criterion on netD_B applied to fake_A
with target real plus the BCE term between the thresholded auxiliary
classification signal (the pointwise sigmoid of fake_B with entries not
exceeding 0.1 zeroed) and real_B. -/
theorem generator_adversarial_asymmetry (nets : Networks) (crit : Criteria)
    (opt : Options) (s : ModelState)
    (hshape : (nets.netG_A s.real_A).length = s.real_B.length) :
    (backward_G nets crit opt (forward nets crit.sigmoid s)).map
        (fun r => (r.1.loss_G_A, r.1.loss_G_B)) =
      Except.ok
        (crit.criterionGAN (nets.netD_A (nets.netG_A s.real_A)) true,
          crit.criterionGAN (nets.netD_B (nets.netG_B s.real_B)) true +
            crit.bce
              (whereGT ((nets.netG_A s.real_A).map crit.sigmoid) (1 / 10)
                ((nets.netG_A s.real_A).map crit.sigmoid)) s.real_B) := by
  simp [backward_G, forward, hshape, Except.map]

/-- Witness for the adversarial-asymmetry theorem at identity networks. -/
theorem generator_adversarial_asymmetry_witness :
    (idNets.netG_A exState1.real_A).length = exState1.real_B.length ∧
    (backward_G idNets zeroCrit defaultTrainOptions
        (forward idNets zeroCrit.sigmoid exState1)).map
        (fun r => (r.1.loss_G_A, r.1.loss_G_B)) =
      Except.ok
        (zeroCrit.criterionGAN (idNets.netD_A (idNets.netG_A exState1.real_A))
            true,
          zeroCrit.criterionGAN (idNets.netD_B (idNets.netG_B exState1.real_B))
              true +
            zeroCrit.bce
              (whereGT ((idNets.netG_A exState1.real_A).map zeroCrit.sigmoid)
                (1 / 10)
                ((idNets.netG_A exState1.real_A).map zeroCrit.sigmoid))
              exState1.real_B) :=
  ⟨rfl, generator_adversarial_asymmetry idNets zeroCrit defaultTrainOptions
    exState1 rfl⟩

/-- C9: shape-mismatch precondition.  If the auxiliary classification
signal has a length that differs from the length of real_B, backward_G aborts with the
descriptive assertion message before any loss record is produced; under the
equal-shape precondition the error branch is unreachable and backward_G
returns a loss record. -/
theorem shape_mismatch_assert (nets : Networks) (crit : Criteria)
    (opt : Options) (s : ModelState) :
    (s.fake_B_classification_vector.length ≠ s.real_B.length →
      backward_G nets crit opt s =
        Except.error "Shape mismatch between fake_B and real_B") ∧
    (s.fake_B_classification_vector.length = s.real_B.length →
      ∃ r, backward_G nets crit opt s = Except.ok r) := by
  constructor
  · intro hne
    simp [backward_G, hne]
  · intro heq
    simp [backward_G, heq]

/-- Witness for the shape-mismatch theorem: exState1 itself has an empty
classification vector against a one-element real_B and triggers the error;
the state after a forward pass with identity networks satisfies the
precondition and succeeds. -/
theorem shape_mismatch_assert_witness :
    (exState1.fake_B_classification_vector.length ≠ exState1.real_B.length ∧
      backward_G idNets zeroCrit defaultTrainOptions exState1 =
        Except.error "Shape mismatch between fake_B and real_B") ∧
    ((forward idNets zeroCrit.sigmoid
          exState1).fake_B_classification_vector.length =
        (forward idNets zeroCrit.sigmoid exState1).real_B.length ∧
      ∃ r, backward_G idNets zeroCrit defaultTrainOptions
          (forward idNets zeroCrit.sigmoid exState1) = Except.ok r) :=
  ⟨⟨by decide,
      (shape_mismatch_assert idNets zeroCrit defaultTrainOptions exState1).1
        (by decide)⟩,
    ⟨rfl,
      (shape_mismatch_assert idNets zeroCrit defaultTrainOptions
        (forward idNets zeroCrit.sigmoid exState1)).2 rfl⟩⟩

/-- C5: backward_D_basic computes the GAN criterion on the prediction of the critic on the real batch with target real plus the GAN criterion on its
prediction of the detached fake with target fake, and backpropagating the
two critic-output expressions reaches the parameters of the critic but never the
parameters of the generator that produced the fake: the detach view severs
that gradient path. -/
theorem backward_D_no_gradient_leak (cG : Tensor → Bool → ℚ)
    (interp : String → Tensor → Tensor) (d g : String) (realE argE : TExpr)
    (hdg : g ≠ d) (hreal : g ∉ realE.gradDeps) :
    backward_D_basic cG (interp d) (realE.eval interp)
        ((TExpr.app g argE).eval interp) =
      cG (interp d (realE.eval interp)) true +
        cG (((backward_D_basic_exprs d realE
          (TExpr.app g argE)).2).eval interp) false ∧
    g ∉ ((backward_D_basic_exprs d realE (TExpr.app g argE)).1).gradDeps ∧
    g ∉ ((backward_D_basic_exprs d realE (TExpr.app g argE)).2).gradDeps := by
  refine ⟨rfl, ?_, ?_⟩
  · simp [backward_D_basic_exprs, TExpr.gradDeps, hdg, hreal]
  · simp [backward_D_basic_exprs, TExpr.gradDeps, hdg]

/-- Witness for the no-gradient-leak theorem with critic D_A and generator
G_A on concrete input expressions. -/
theorem backward_D_no_gradient_leak_witness :
    ("G_A" ≠ "D_A" ∧ "G_A" ∉ (TExpr.input [1]).gradDeps) ∧
    backward_D_basic (fun _ _ => (0 : ℚ)) ((fun _ t => t) "D_A")
        ((TExpr.input [1]).eval (fun _ t => t))
        ((TExpr.app "G_A" (TExpr.input [2])).eval (fun _ t => t)) =
      (fun _ _ => (0 : ℚ))
          ((fun _ t => t) "D_A" ((TExpr.input [1]).eval (fun _ t => t)))
          true +
        (fun _ _ => (0 : ℚ))
          (((backward_D_basic_exprs "D_A" (TExpr.input [1])
            (TExpr.app "G_A" (TExpr.input [2]))).2).eval (fun _ t => t))
          false ∧
    "G_A" ∉ ((backward_D_basic_exprs "D_A" (TExpr.input [1])
      (TExpr.app "G_A" (TExpr.input [2]))).1).gradDeps ∧
    "G_A" ∉ ((backward_D_basic_exprs "D_A" (TExpr.input [1])
      (TExpr.app "G_A" (TExpr.input [2]))).2).gradDeps :=
  ⟨⟨by decide, by simp [TExpr.gradDeps]⟩,
    backward_D_no_gradient_leak (fun _ _ => 0) (fun _ t => t) "D_A" "G_A"
      (TExpr.input [1]) (TExpr.input [2]) (by decide)
      (by simp [TExpr.gradDeps])⟩

/-- C3: one training call runs exactly one generator-optimizer step and one
critic-optimizer step, generator first; the replay pool of each domain is
queried exactly once, and only in the critic phase (the generator-phase
events contain no pool query); each discriminator loss is the GAN criterion
on the genuine real sample plus the GAN criterion on the detached pool-served
fake sample. -/
theorem optimize_schedule (nets : Networks) (crit : Criteria) (opt : Options)
    (queryA queryB : Tensor → Tensor) (s : ModelState)
    (hshape : (nets.netG_A s.real_A).length = s.real_B.length) :
    (optimize_parameters nets crit opt queryA queryB s true).map
        StepResult.trace = Except.ok (trainTrace opt) ∧
    (trainTrace opt).count (Event.stepOpt "G") = 1 ∧
    (trainTrace opt).count (Event.stepOpt "D") = 1 ∧
    (trainTrace opt).indexOf (Event.stepOpt "G") <
      (trainTrace opt).indexOf (Event.stepOpt "D") ∧
    (trainTrace opt).count (Event.poolQuery "fake_B_pool") = 1 ∧
    (trainTrace opt).count (Event.poolQuery "fake_A_pool") = 1 ∧
    (∀ p, Event.poolQuery p ∉ idtEvents opt) ∧
    (optimize_parameters nets crit opt queryA queryB s true).map
        StepResult.dLosses =
      Except.ok (some
        { loss_D_A := crit.criterionGAN (nets.netD_A s.real_B) true +
            crit.criterionGAN
              (nets.netD_A (detach (queryB (nets.netG_A s.real_A)))) false
          loss_D_B := crit.criterionGAN (nets.netD_B s.real_A) true +
            crit.criterionGAN
              (nets.netD_B (detach (queryA (nets.netG_B s.real_B)))) false }) := by
  refine ⟨?_, ?_, ?_, ?_, ?_, ?_, ?_, ?_⟩
  · simp [optimize_parameters, forward, backward_G, hshape, trainTrace,
      backward_D_A, backward_D_B, Except.map]
  · by_cases hl : opt.lambda_identity > 0 <;>
      simp [trainTrace, idtEvents, hl]
  · by_cases hl : opt.lambda_identity > 0 <;>
      simp [trainTrace, idtEvents, hl]
  · by_cases hl : opt.lambda_identity > 0 <;>
      simp [trainTrace, idtEvents, hl]
  · by_cases hl : opt.lambda_identity > 0 <;>
      simp [trainTrace, idtEvents, hl]
  · by_cases hl : opt.lambda_identity > 0 <;>
      simp [trainTrace, idtEvents, hl]
  · intro p
    by_cases hl : opt.lambda_identity > 0 <;> simp [idtEvents, hl]
  · simp [optimize_parameters, forward, backward_G, hshape,
      backward_D_A, backward_D_B, backward_D_basic, Except.map]

/-- Witness for the scheduling theorem at identity networks and identity
pool queries on exState1. -/
theorem optimize_schedule_witness :
    (idNets.netG_A exState1.real_A).length = exState1.real_B.length ∧
    (optimize_parameters idNets zeroCrit defaultTrainOptions (fun t => t)
        (fun t => t) exState1 true).map StepResult.trace =
      Except.ok (trainTrace defaultTrainOptions) :=
  ⟨rfl, (optimize_schedule idNets zeroCrit defaultTrainOptions (fun t => t)
    (fun t => t) exState1 rfl).1⟩

/-- C10: noninterference of the unused auxiliary inputs.  Two training
iterations whose dataset inputs agree except in the rain_rate and
attenuation occurrence probabilities and in the link min/max of the data
transformation produce identical generator, cycle, identity, adversarial and
diagnostic losses, identical discriminator losses, and an identical event
trace; only the diagnostic fake_B_unnormalized value (erased by scrubG) may
differ, so it contributes to no loss term. -/
theorem aux_inputs_noninterference (nets : Networks) (crit : Criteria)
    (opt : Options) (queryA queryB : Tensor → Tensor) (inp : DataInput)
    (r a : Tensor) (m M : ℚ) :
    (trainingStep nets crit opt queryA queryB
        { inp with
            rain_rate := r
            attenuation := a
            link_min := m
            link_max := M }).map
        (fun res => (res.gLosses.map scrubG, res.dLosses, res.trace)) =
      (trainingStep nets crit opt queryA queryB inp).map
        (fun res => (res.gLosses.map scrubG, res.dLosses, res.trace)) := by
  by_cases hc : (nets.netG_A inp.A).length = inp.B.length <;>
    simp [trainingStep, optimize_parameters, set_input, forward, backward_G,
      backward_D_A, backward_D_B, backward_D_basic, detach, idtEvents,
      scrubG, hc, Except.map]

end CGM
